import Mathlib

/-!
Verification of the retrieval-augmented answering pipeline in
`src/app/api/llm/route.ts`.

The route handler is modelled as pure Lean functions parameterized by the
external collaborators (web search, batch scraper, embedding/vector store,
LLM router), which are passed in as oracle values/functions. JavaScript
truthiness on optional strings (`x || d`, `!x`) is modelled explicitly.
-/

namespace AIChat

/-- JavaScript `x || d` for an optional string `x`: `undefined` and the empty
string are falsy. -/
def jsOrStr : Option String → String → String
  | none, d => d
  | some s, d => if s = "" then d else s

/-- JavaScript truthiness of an optional string: `undefined` and `""` are falsy. -/
def optTruthy : Option String → Bool
  | none => false
  | some s => s != ""

/-- Characterwise `trim`: drop leading and trailing whitespace. -/
def trimChars (cs : List Char) : List Char :=
  ((cs.dropWhile Char.isWhitespace).reverse.dropWhile Char.isWhitespace).reverse

/-- JavaScript `s.trim()` (same semantics as `String.trim`, stated over the
character list so that it computes by kernel reduction). -/
def trimStr (s : String) : String := ⟨trimChars s.data⟩

/-- JavaScript `s.toLowerCase()` on ASCII text (same semantics as
`String.toLower`, stated over the character list). -/
def toLowerStr (s : String) : String := ⟨s.data.map Char.toLower⟩

/-- `splitCharList sep cs` splits `cs` at every occurrence of the character
`sep`, keeping empty segments — JavaScript `split` semantics. -/
def splitCharList (sep : Char) : List Char → List (List Char)
  | [] => [[]]
  | c :: t =>
    let r := splitCharList sep t
    if c == sep then [] :: r
    else
      match r with
      | [] => [[c]]
      | h :: t2 => (c :: h) :: t2

/-- JavaScript `s.split("/")`. -/
def splitOnSlash (s : String) : List String :=
  (splitCharList '/' s.data).map fun cs => ⟨cs⟩

/-- `leadsWith pat s` is true when `pat` is an initial segment of `s`. -/
def leadsWith : List Char → List Char → Bool
  | [], _ => true
  | _ :: _, [] => false
  | a :: as, b :: bs => a == b && leadsWith as bs

/-- `occursIn pat s` is true when `pat` occurs contiguously inside `s`
(JavaScript `s.includes(pat)` on the underlying characters). -/
def occursIn (pat : List Char) : List Char → Bool
  | [] => leadsWith pat []
  | c :: t => leadsWith pat (c :: t) || occursIn pat t

/-- JavaScript `s.includes(pat)` for strings. -/
def containsSub (s pat : String) : Bool :=
  occursIn pat.toList s.toList

/-- JavaScript `[a, b, ...].join(sep)`. -/
def joinSep (sep : String) : List String → String
  | [] => ""
  | [a] => a
  | a :: b :: rest => a ++ sep ++ joinSep sep (b :: rest)

/-- One raw organic result returned by the Serper search collaborator
(fields the route reads: `title`, `link`, `favicons`). -/
structure OrganicResult where
  title : Option String
  link : String
  favicons : Option (List String)
deriving DecidableEq, Repr

/-- interface SearchResult (route.ts lines 66-70). -/
structure SearchResult where
  title : String
  link : String
  favicon : String
deriving DecidableEq, Repr

/-- interface ScrapedPage (route.ts lines 52-56). -/
structure ScrapedPage where
  url : String
  title : String
  content : String
deriving DecidableEq, Repr

/-- interface FirecrawlDocument (route.ts lines 58-64); `sourceURL` stands for
`metadata?.sourceURL` (the unused `statusCode` is omitted). -/
structure FirecrawlDocument where
  markdown : Option String
  sourceURL : Option String
deriving DecidableEq, Repr

/-- The batch-scrape collaborator's response shape:
`{success: bool, data?: FirecrawlDocument[]}`. -/
structure ScrapeResponse where
  success : Bool
  data : Option (List FirecrawlDocument)
deriving DecidableEq, Repr

/-- A document held by the in-memory vector store: chunk text tagged with the
originating page's `(url, title)` metadata. -/
structure ContextChunk where
  pageContent : String
  url : String
  title : String
deriving DecidableEq, Repr

/-- A `{provider, model}` pair as used in `llmProviders` and in the
collaborator's `providers` reply list. -/
structure ProviderModel where
  provider : String
  model : String
deriving DecidableEq, Repr

/-- The raw result of `notDiamond.create`: on success it carries `content` and
`providers`; an error reply instead carries only `detail` (the other keys are
then `undefined`). -/
structure NDRawResult where
  content : Option String
  providers : Option (List ProviderModel)
  detail : Option String
deriving DecidableEq, Repr

/-- interface LLMResponse (route.ts lines 72-78): the object rebuilt by
`generateLLMResponse` out of the raw result; it has exactly the keys
`content` and `providers` (so a later `"detail" in result` test is false). -/
structure LLMResponse where
  content : Option String
  providers : Option (List ProviderModel)
deriving DecidableEq, Repr

/-- One `{title, url}` entry of the response's `sources` list. -/
structure SourceEntry where
  title : String
  url : String
deriving DecidableEq, Repr

/-- The `crawlInfo` object of the response payload (route.ts lines 360-364). -/
structure CrawlInfo where
  requestedPages : Int
  actualPagesCrawled : Nat
  embeddingsUsed : Bool
deriving DecidableEq, Repr

/-- The successful response payload (route.ts lines 357-368). `answer` and
`selectedModel` may be `undefined` when the collaborator reply lacked them. -/
structure ResponsePayload where
  answer : Option String
  selectedModel : Option ProviderModel
  crawlInfo : CrawlInfo
  sources : List SourceEntry
deriving DecidableEq, Repr

/-- Outcome of the POST handler: a JSON payload, a 400 response, or a 500
response (thrown errors caught at route.ts lines 372-378). -/
inductive PostResult where
  | ok (payload : ResponsePayload)
  | clientError (message : String)
  | serverError (message : String)
deriving DecidableEq, Repr

/-- interface RequestBody (route.ts lines 46-50); optional fields may be
absent from the JSON body. -/
structure RequestBody where
  message : Option String
  pagesToCrawl : Option Int
  skipEmbeddings : Option Bool
deriving DecidableEq, Repr

/-- serperSearch (route.ts lines 81-120), success path: take the first
`numberOfPagesToScan` organic results and normalize title/link/favicon with
JavaScript `||` defaulting. The collaborator's ranked organic list for the
request's query is the oracle argument. -/
def serperSearch (organic : List OrganicResult) (numberOfPagesToScan : Int) :
    List SearchResult :=
  (organic.take numberOfPagesToScan.toNat).map fun r =>
    { title := jsOrStr r.title "No Title"
      link := r.link
      favicon := jsOrStr (r.favicons.bind List.head?) "" }

/-- The fixed domain denylist (route.ts lines 136-150). -/
def unsupportedDomains : List String :=
  ["twitter.com", "x.com", "facebook.com", "fb.com", "instagram.com",
   "linkedin.com", "tiktok.com", "youtube.com", "reddit.com", "threads.net",
   "pinterest.com", "tumblr.com", "snapchat.com"]

/-- The filter predicate of route.ts lines 152-155: keep a URL iff its
lowercase form contains no denylisted domain. -/
def urlIsSupported (url : String) : Bool :=
  ! unsupportedDomains.any fun domain => containsSub (toLowerStr url) domain

/-- `urls.filter(...)` of route.ts lines 152-155. -/
def filterUrls (urls : List String) : List String :=
  urls.filter urlIsSupported

/-- The sentinel page returned when every URL was filtered out
(route.ts lines 159-165). -/
def noValidUrlsPage : ScrapedPage :=
  { url := "No valid URLs"
    title := "No Results"
    content := "Unable to find non-social media content for this query." }

/-- The sentinel page returned when the scraping collaborator fails
(route.ts lines 177-183). -/
def scrapingFailedPage : ScrapedPage :=
  { url := "Scraping failed"
    title := "Error"
    content := "Failed to scrape content from the provided URLs." }

/-- Title derivation of route.ts line 192:
`doc.metadata?.sourceURL?.split("/").pop() || "Title not available"`. -/
def docTitle : Option String → String
  | none => "Title not available"
  | some u => jsOrStr (splitOnSlash u).getLast? "Title not available"

/-- Mapping of one Firecrawl document to a ScrapedPage (route.ts lines 189-194). -/
def docToPage (doc : FirecrawlDocument) : ScrapedPage :=
  { url := jsOrStr doc.sourceURL "URL not available"
    title := docTitle doc.sourceURL
    content := jsOrStr doc.markdown "Content not available" }

/-- mapAndScrapeUrls (route.ts lines 123-199): search, cap, filter, then either
return a sentinel (empty filter result, or collaborator failure) or keep the
documents that carry both a source URL and a markdown body. The batch-scrape
collaborator is the oracle `scrape`; it is consulted only on the non-empty
branch, exactly as in the source. -/
def mapAndScrapeUrls (organic : List OrganicResult)
    (scrape : List String → ScrapeResponse) (pagesToCrawl : Int) :
    List ScrapedPage :=
  let searchResults := serperSearch organic pagesToCrawl
  let urls := searchResults.map SearchResult.link
  let filteredUrls := filterUrls urls
  if filteredUrls.isEmpty then
    [noValidUrlsPage]
  else
    let scrapedData := scrape filteredUrls
    if !scrapedData.success || scrapedData.data.isNone then
      [scrapingFailedPage]
    else
      ((scrapedData.data.getD []).filter fun doc =>
          optTruthy doc.sourceURL && optTruthy doc.markdown).map docToPage

/-- One labeled block of processDirectContext (route.ts line 243), including
the trailing `.trim()` the source applies to each block. -/
def pageBlock (page : ScrapedPage) : String :=
  trimStr ("Page: " ++ page.title ++ "\nURL: " ++ page.url ++ "\nContent:\n" ++
    page.content ++ "\n-------------------")

/-- processDirectContext (route.ts lines 240-246): map each page to its block
and join with a blank line. -/
def processDirectContext (scrapedPages : List ScrapedPage) : String :=
  joinSep "\n\n" (scrapedPages.map pageBlock)

/-- textChunkSize argument fixed at the call site (route.ts line 333). -/
def textChunkSize : Nat := 800

/-- textChunkOverlap argument fixed at the call site (route.ts line 334). -/
def textChunkOverlap : Nat := 200

/-- numberOfSimilarityResults fixed at the call site (route.ts line 338). -/
def numberOfSimilarityResults : Nat := 2

/-- `vectorStore.similaritySearch(query, k)`: the external vector-store
collaborator orders the stored chunks by similarity to the query (the ordering
is the oracle `rank`) and the first `k` are returned. -/
def similaritySearch (rank : List ContextChunk → String → List ContextChunk)
    (store : List ContextChunk) (query : String) (k : Nat) : List ContextChunk :=
  (rank store query).take k

/-- The embedding branch of the handler (route.ts lines 331-339):
processWithEmbeddings builds an in-memory vector store from the pages (chunk
splitting with window `textChunkSize`/overlap `textChunkOverlap`, embedding,
and store merging all happen inside the external collaborators, modelled by
the oracle `buildStore`), then `similaritySearch(message, 2)` retrieves the
context. With zero pages, `processedContent[0]` is `undefined` in the source
and the subsequent `similaritySearch` call throws a TypeError. -/
def embeddingContext (buildStore : List ScrapedPage → List ContextChunk)
    (rank : List ContextChunk → String → List ContextChunk)
    (scrapedPages : List ScrapedPage) (message : String) :
    Except String (List ContextChunk) :=
  if scrapedPages.isEmpty then
    .error "Cannot read properties of undefined (reading similaritySearch)"
  else
    .ok (similaritySearch rank (buildStore scrapedPages) message
          numberOfSimilarityResults)

/-- The context value handed to generateLLMResponse: a plain string in direct
mode, a chunk list in embedding mode. -/
inductive ContextValue where
  | direct (s : String)
  | chunks (cs : List ContextChunk)
deriving DecidableEq, Repr

/-- Model of `JSON.stringify` on one stored chunk. -/
def serializeChunk (c : ContextChunk) : String :=
  "\x7b\"pageContent\":\"" ++ c.pageContent ++ "\",\"metadata\":\x7b\"url\":\"" ++
    c.url ++ "\",\"title\":\"" ++ c.title ++ "\"\x7d\x7d"

/-- Model of `JSON.stringify` on the chunk list. -/
def serializeChunks (cs : List ContextChunk) : String :=
  "[" ++ joinSep "," (cs.map serializeChunk) ++ "]"

/-- The system message of generateLLMResponse (route.ts lines 253-258): the
shape of the context is the only thing that changes the prompt. -/
def systemMessage : ContextValue → String
  | .direct s => "Answer based on the following pages of content: " ++ s
  | .chunks cs => "Answer based on the following relevant excerpts: " ++
      serializeChunks cs

/-- The fixed ordered provider/model preference list (route.ts lines 265-269). -/
def llmProviders : List ProviderModel :=
  [{ provider := "openai", model := "gpt-4o-mini" },
   { provider := "anthropic", model := "claude-3-5-sonnet-20240620" },
   { provider := "google", model := "gemini-1.5-pro-latest" }]

/-- The fixed tradeoff hint (route.ts line 270). -/
def tradeoff : String := "cost"

/-- generateLLMResponse (route.ts lines 249-281): one call to the routing
collaborator (the oracle `llm`, a function of the system and user messages);
a missing result becomes a thrown error, otherwise the `content`/`providers`
fields are repackaged (dropping any `detail` key). No retry and no local
fallback among providers exist: the single oracle application is the only
collaborator interaction. -/
def generateLLMResponse (llm : String → String → Option NDRawResult)
    (context : ContextValue) (message : String) : Except String LLMResponse :=
  match llm (systemMessage context) message with
  | none => .error "Failed to generate LLM response"
  | some result => .ok { content := result.content, providers := result.providers }

/-- `Math.min(Math.max(1, pagesToCrawl), 10)` (route.ts line 310). -/
def validatePages (pagesToCrawl : Int) : Int :=
  min (max 1 pagesToCrawl) 10

/-- All external collaborators of one request, as oracles. -/
structure Oracles where
  organic : List OrganicResult
  scrape : List String → ScrapeResponse
  buildStore : List ScrapedPage → List ContextChunk
  rank : List ContextChunk → String → List ContextChunk
  llm : String → String → Option NDRawResult

/-- `scrapedPages.map(page => ({title, url}))` (route.ts lines 322-325). -/
def sourcesOf (scrapedPages : List ScrapedPage) : List SourceEntry :=
  scrapedPages.map fun page => { title := page.title, url := page.url }

/-- Response assembly (route.ts lines 357-368). `result.providers[0]` throws a
TypeError when `providers` is `undefined` (caught as a 500); on an empty list
it is `undefined`, a present list yields its head. The preceding
`"detail" in result` guard (lines 348-354) is always false because
`generateLLMResponse` rebuilt the object with only `content` and `providers`
keys. -/
def assemblePayload (result : LLMResponse) (pagesToCrawl : Int)
    (skipEmbeddings : Bool) (sources : List SourceEntry) : PostResult :=
  match result.providers with
  | none => .serverError "Cannot read properties of undefined (reading 0)"
  | some providers =>
    .ok { answer := result.content
          selectedModel := providers.head?
          crawlInfo := { requestedPages := pagesToCrawl
                         actualPagesCrawled := sources.length
                         embeddingsUsed := !skipEmbeddings }
          sources := sources }

/-- POST (route.ts lines 284-379): validate the message, default and clamp
`pagesToCrawl`, search+scrape, build the context (direct or embedding mode),
call the LLM router once, and assemble the payload. Any thrown error becomes
a 500 `serverError`. -/
def POST (o : Oracles) (body : RequestBody) : PostResult :=
  match body.message with
  | none => .clientError "Message is required"
  | some message =>
    if message = "" then .clientError "Message is required"
    else
      let pagesToCrawl := body.pagesToCrawl.getD 3
      let skipEmbeddings := body.skipEmbeddings.getD false
      let validatedPagesToCrawl := validatePages pagesToCrawl
      let scrapedPages := mapAndScrapeUrls o.organic o.scrape validatedPagesToCrawl
      let sources := sourcesOf scrapedPages
      let contextE : Except String ContextValue :=
        if skipEmbeddings then
          .ok (.direct (processDirectContext scrapedPages))
        else
          (embeddingContext o.buildStore o.rank scrapedPages message).map .chunks
      match contextE with
      | .error e => .serverError e
      | .ok context =>
        match generateLLMResponse o.llm context message with
        | .error e => .serverError e
        | .ok result => assemblePayload result pagesToCrawl skipEmbeddings sources

/-! ### Concrete worlds used to instantiate the theorems below -/

/-- A routing-collaborator reply carrying content and a provider choice. -/
def ndOk : NDRawResult :=
  { content := some "ans"
    providers := some [{ provider := "openai", model := "gpt-4o-mini" }]
    detail := none }

/-- A world whose single search hit is scrapable and whose scraper echoes the
URLs it is given. -/
def okOracles : Oracles :=
  { organic := [{ title := some "T", link := "https://example.com/a", favicons := none }]
    scrape := fun urls =>
      { success := true
        data := some (urls.map fun u => { markdown := some "md", sourceURL := some u }) }
    buildStore := fun _ => []
    rank := fun cs _ => cs
    llm := fun _ _ => some ndOk }

/-- A request asking for 25 pages in direct-context mode. -/
def okBody : RequestBody :=
  { message := some "q", pagesToCrawl := some 25, skipEmbeddings := some true }

/-- The payload `POST okOracles okBody` produces. -/
def okPayload : ResponsePayload :=
  { answer := some "ans"
    selectedModel := some { provider := "openai", model := "gpt-4o-mini" }
    crawlInfo := { requestedPages := 25, actualPagesCrawled := 1, embeddingsUsed := false }
    sources := [{ title := "a", url := "https://example.com/a" }] }

/-- A world whose only search hit is on the denylist. -/
def deniedOracles : Oracles :=
  { organic := [{ title := some "T", link := "https://twitter.com/x", favicons := none }]
    scrape := fun _ => { success := true, data := none }
    buildStore := fun _ => []
    rank := fun cs _ => cs
    llm := fun _ _ => some ndOk }

/-- A request with all optional fields defaulted except direct-context mode. -/
def plainBody : RequestBody :=
  { message := some "hi", pagesToCrawl := none, skipEmbeddings := some true }

/-- A world whose scraping collaborator reports overall failure. -/
def failScrapeOracles : Oracles :=
  { organic := [{ title := some "T", link := "https://example.com/a", favicons := none }]
    scrape := fun _ => { success := false, data := none }
    buildStore := fun _ => []
    rank := fun cs _ => cs
    llm := fun _ _ => some ndOk }

/-- A world whose LLM-routing collaborator returns no result. -/
def noLLMOracles : Oracles :=
  { organic := [{ title := some "T", link := "https://example.com/a", favicons := none }]
    scrape := fun urls =>
      { success := true
        data := some (urls.map fun u => { markdown := some "md", sourceURL := some u }) }
    buildStore := fun _ => []
    rank := fun cs _ => cs
    llm := fun _ _ => none }

/-- An arbitrary payload, used to instantiate negated-success statements. -/
def somePayload : ResponsePayload :=
  { answer := none
    selectedModel := none
    crawlInfo := { requestedPages := 3, actualPagesCrawled := 0, embeddingsUsed := false }
    sources := [] }

/-- A store builder producing three chunks, to exercise top-2 retrieval. -/
def threeChunkStore : List ScrapedPage → List ContextChunk := fun _ =>
  [{ pageContent := "c1", url := "u", title := "t" },
   { pageContent := "c2", url := "u", title := "t" },
   { pageContent := "c3", url := "u", title := "t" }]

/-- The identity similarity ordering. -/
def idRank : List ContextChunk → String → List ContextChunk := fun cs _ => cs

/-- A single real scraped page. -/
def onePage : List ScrapedPage := [{ url := "u", title := "t", content := "c" }]

/-! ### Helper lemmas -/

theorem mem_filterUrls_not_denylisted (urls : List String) (u : String)
    (hu : u ∈ filterUrls urls) :
    ∀ d ∈ unsupportedDomains, containsSub (toLowerStr u) d = false := by
  intro d hd
  unfold filterUrls at hu
  have hsup := List.of_mem_filter hu
  unfold urlIsSupported at hsup
  simp only [Bool.not_eq_true', List.any_eq_false] at hsup
  simpa using hsup d hd

theorem mapAndScrape_url_not_denylisted (organic : List OrganicResult)
    (scrape : List String → ScrapeResponse) (n : Int)
    (hscrape : ∀ urls doc, doc ∈ ((scrape urls).data.getD []) →
      ∀ u, doc.sourceURL = some u → u ∈ urls) :
    ∀ page ∈ mapAndScrapeUrls organic scrape n, ∀ d ∈ unsupportedDomains,
      containsSub (toLowerStr page.url) d = false := by
  intro page hpage
  unfold mapAndScrapeUrls at hpage
  dsimp only at hpage
  split at hpage
  · simp only [List.mem_singleton] at hpage
    subst hpage
    exact (by decide :
      ∀ d ∈ unsupportedDomains, containsSub (toLowerStr noValidUrlsPage.url) d = false)
  · split at hpage
    · simp only [List.mem_singleton] at hpage
      subst hpage
      exact (by decide :
        ∀ d ∈ unsupportedDomains, containsSub (toLowerStr scrapingFailedPage.url) d = false)
    · simp only [List.mem_map, List.mem_filter] at hpage
      obtain ⟨doc, ⟨hmem, hok⟩, rfl⟩ := hpage
      simp only [Bool.and_eq_true] at hok
      obtain ⟨hsrc, _⟩ := hok
      cases hu : doc.sourceURL with
      | none => rw [hu] at hsrc; simp [optTruthy] at hsrc
      | some u =>
        have hu_mem := hscrape _ doc hmem u hu
        have hne : u ≠ "" := by
          rw [hu] at hsrc; simpa [optTruthy] using hsrc
        have hurl : (docToPage doc).url = u := by
          simp [docToPage, hu, jsOrStr, hne]
        rw [hurl]
        exact mem_filterUrls_not_denylisted _ u hu_mem

theorem post_ok_inv (o : Oracles) (body : RequestBody) (payload : ResponsePayload)
    (h : POST o body = .ok payload) :
    payload.sources =
      sourcesOf (mapAndScrapeUrls o.organic o.scrape
        (validatePages (body.pagesToCrawl.getD 3))) ∧
    payload.crawlInfo.requestedPages = body.pagesToCrawl.getD 3 ∧
    payload.crawlInfo.actualPagesCrawled = payload.sources.length ∧
    payload.crawlInfo.embeddingsUsed = !(body.skipEmbeddings.getD false) := by
  unfold POST at h
  cases hm : body.message with
  | none => rw [hm] at h; simp at h
  | some m =>
    rw [hm] at h
    dsimp only at h
    by_cases hne : m = ""
    · simp [hne] at h
    · rw [if_neg hne] at h
      split at h
      · simp at h
      · unfold generateLLMResponse at h
        split at h
        · simp at h
        · unfold assemblePayload at h
          split at h
          · simp at h
          · simp only [PostResult.ok.injEq] at h
            subst h
            simp

theorem okOracles_scrape_faithful : ∀ urls doc,
    doc ∈ ((okOracles.scrape urls).data.getD []) →
    ∀ u, doc.sourceURL = some u → u ∈ urls := by
  intro urls doc hdoc u hu
  simp only [okOracles, Option.getD_some, List.mem_map] at hdoc
  obtain ⟨v, hv, rfl⟩ := hdoc
  simp only [Option.some.injEq] at hu
  subst hu
  exact hv

/-! ### Claims -/

/-- C1: the effective number of pages used for search/scraping is the
caller-supplied `pagesToCrawl` clamped into `[1,10]` (input 0 yields
effective 1, input 25 yields effective 10); an absent `pagesToCrawl`
defaults to 3, and at most the clamped number (hence at most 10) of search
results is ever taken. -/
theorem pagesToCrawl_clamped_and_defaulted :
    (∀ p : Int, 1 ≤ validatePages p ∧ validatePages p ≤ 10) ∧
    validatePages 0 = 1 ∧ validatePages 25 = 10 ∧
    validatePages ((none : Option Int).getD 3) = 3 ∧
    (∀ (organic : List OrganicResult) (p : Int),
      (serperSearch organic (validatePages p)).length ≤ (validatePages p).toNat ∧
      (serperSearch organic (validatePages p)).length ≤ 10) ∧
    (∀ (organic : List OrganicResult) (p : Int),
      serperSearch organic (validatePages p) =
        serperSearch (organic.take 10) (validatePages p)) := by
  have hb : ∀ p : Int, 1 ≤ validatePages p ∧ validatePages p ≤ 10 := by
    intro p; unfold validatePages; omega
  refine ⟨hb, by decide, by decide, by decide, fun organic p => ?_, fun organic p => ?_⟩
  · have h : (validatePages p).toNat ≤ 10 := by unfold validatePages; omega
    refine ⟨?_, ?_⟩
    · simp only [serperSearch, List.length_map, List.length_take]
      omega
    · simp only [serperSearch, List.length_map, List.length_take]
      omega
  · have h : min ((validatePages p).toNat) 10 = (validatePages p).toNat := by
      unfold validatePages; omega
    simp [serperSearch, List.take_take, h]

/-- C2: when every search result is filtered out by the denylist, the scrape
stage returns exactly the "no valid URLs" sentinel page without consulting the
scraping collaborator (the result is the same for every scrape oracle), and
the request still succeeds with exactly that sentinel as its one source. -/
theorem empty_filter_returns_sentinel (o : Oracles) (body : RequestBody)
    (m : String) (hm : body.message = some m) (hne : m ≠ "")
    (hf : filterUrls ((serperSearch o.organic
      (validatePages (body.pagesToCrawl.getD 3))).map SearchResult.link) = [])
    (r : NDRawResult) (hllm : ∀ s u, o.llm s u = some r)
    (ps : List ProviderModel) (hprov : r.providers = some ps) :
    (∀ scrape₁ scrape₂ : List String → ScrapeResponse,
      mapAndScrapeUrls o.organic scrape₁ (validatePages (body.pagesToCrawl.getD 3)) =
        mapAndScrapeUrls o.organic scrape₂ (validatePages (body.pagesToCrawl.getD 3))) ∧
    mapAndScrapeUrls o.organic o.scrape (validatePages (body.pagesToCrawl.getD 3)) =
      [noValidUrlsPage] ∧
    POST o body = PostResult.ok
      { answer := r.content
        selectedModel := ps.head?
        crawlInfo := { requestedPages := body.pagesToCrawl.getD 3
                       actualPagesCrawled := 1
                       embeddingsUsed := !(body.skipEmbeddings.getD false) }
        sources := [{ title := "No Results", url := "No valid URLs" }] } := by
  have hmap : ∀ scrape : List String → ScrapeResponse,
      mapAndScrapeUrls o.organic scrape (validatePages (body.pagesToCrawl.getD 3)) =
        [noValidUrlsPage] := by
    intro scrape
    unfold mapAndScrapeUrls
    dsimp only
    rw [hf]
    rfl
  refine ⟨fun s₁ s₂ => (hmap s₁).trans (hmap s₂).symm, hmap o.scrape, ?_⟩
  unfold POST
  rw [hm]
  dsimp only
  rw [if_neg hne, hmap]
  cases hskip : body.skipEmbeddings.getD false <;>
    simp [hskip, generateLLMResponse, hllm, hprov, assemblePayload, sourcesOf,
      embeddingContext, Except.map, noValidUrlsPage]

/-- C2 witness: one denylisted search hit, request succeeds with exactly the
"no valid URLs" sentinel source. -/
theorem empty_filter_returns_sentinel_witness :
    POST deniedOracles plainBody = PostResult.ok
      { answer := some "ans"
        selectedModel := some { provider := "openai", model := "gpt-4o-mini" }
        crawlInfo := { requestedPages := 3, actualPagesCrawled := 1, embeddingsUsed := false }
        sources := [{ title := "No Results", url := "No valid URLs" }] } :=
  (empty_filter_returns_sentinel deniedOracles plainBody "hi" rfl (by decide) (by decide)
    ndOk (fun _ _ => rfl) [{ provider := "openai", model := "gpt-4o-mini" }] rfl).2.2

/-- C3: direct-context mode is a deterministic pure concatenation — each page
becomes its trimmed labeled block, blocks are joined by a blank line in input
order, and the single page `{title:"A", url:"u1", content:"c1"}` yields
exactly `"Page: A\nURL: u1\nContent:\nc1\n-------------------"`. -/
theorem direct_context_deterministic_concat :
    processDirectContext [{ url := "u1", title := "A", content := "c1" }] =
      "Page: A\nURL: u1\nContent:\nc1\n-------------------" ∧
    (∀ p : ScrapedPage, processDirectContext [p] = pageBlock p) ∧
    (∀ (p q : ScrapedPage) (rest : List ScrapedPage),
      processDirectContext (p :: q :: rest) =
        pageBlock p ++ "\n\n" ++ processDirectContext (q :: rest)) :=
  ⟨by decide, fun p => rfl, fun p q rest => rfl⟩

/-- C4: the filtered URL set is a subset of the already-capped searched set
(so filtering never increases the count), filtered URLs contain no denylisted
domain (case-insensitive substring), and — provided the scrape collaborator
only reports source URLs among those it was given — no denylisted URL ever
appears in a successful response's sources list. -/
theorem filtering_monotonic_denylist_excluded (o : Oracles) (body : RequestBody)
    (hscrape : ∀ urls doc, doc ∈ ((o.scrape urls).data.getD []) →
      ∀ u, doc.sourceURL = some u → u ∈ urls) :
    (∀ urls : List String, filterUrls urls ⊆ urls ∧
      (filterUrls urls).length ≤ urls.length) ∧
    (∀ (urls : List String) (u : String), u ∈ filterUrls urls →
      ∀ d ∈ unsupportedDomains, containsSub (toLowerStr u) d = false) ∧
    (∀ payload, POST o body = PostResult.ok payload →
      ∀ s ∈ payload.sources, ∀ d ∈ unsupportedDomains,
        containsSub (toLowerStr s.url) d = false) := by
  refine ⟨fun urls => ⟨List.filter_subset' _, List.length_filter_le _ _⟩,
    fun urls u => mem_filterUrls_not_denylisted urls u, fun payload hpost s hs => ?_⟩
  have hsrc := (post_ok_inv o body payload hpost).1
  rw [hsrc] at hs
  unfold sourcesOf at hs
  simp only [List.mem_map] at hs
  obtain ⟨page, hpage, rfl⟩ := hs
  exact mapAndScrape_url_not_denylisted o.organic o.scrape _ hscrape page hpage

/-- C4 witness: in a successful concrete run, the one reported source URL
does not contain `twitter.com`. -/
theorem filtering_monotonic_denylist_excluded_witness :
    containsSub (toLowerStr "https://example.com/a") "twitter.com" = false :=
  (filtering_monotonic_denylist_excluded okOracles okBody okOracles_scrape_faithful).2.2
    okPayload (by decide) { title := "a", url := "https://example.com/a" } (by decide)
    "twitter.com" (by decide)

/-- C5: when the routing collaborator returns no result, or returns an
error-detail reply with neither content nor providers, the request as a whole
fails with a server error and no success payload is ever produced; the model
makes a single collaborator call, so no local fallback among providers
exists. -/
theorem llm_failure_fatal_no_local_fallback (o : Oracles) (body : RequestBody)
    (m : String) (hm : body.message = some m) (hne : m ≠ "")
    (hfail : (∀ s u, o.llm s u = none) ∨
      ∃ d, ∀ s u, o.llm s u =
        some { content := none, providers := none, detail := some d }) :
    (∀ payload, POST o body ≠ PostResult.ok payload) ∧
    ∃ e, POST o body = PostResult.serverError e := by
  unfold POST
  rw [hm]
  dsimp only
  rw [if_neg hne]
  split
  · exact ⟨fun payload => by simp, _, rfl⟩
  · rcases hfail with hf | ⟨d, hf⟩
    · simp [generateLLMResponse, hf]
    · simp [generateLLMResponse, hf, assemblePayload]

/-- C5 witness: with a routing collaborator that returns no result, the
request does not succeed. -/
theorem llm_failure_fatal_no_local_fallback_witness :
    POST noLLMOracles plainBody ≠ PostResult.ok somePayload :=
  (llm_failure_fatal_no_local_fallback noLLMOracles plainBody "hi" rfl (by decide)
    (Or.inl fun _ _ => rfl)).1 somePayload

/-- C6: in embedding mode the retrieved context contains at most 2 chunks, for
every store contents and similarity ordering; the K passed to similarity
search is fixed at 2. -/
theorem embedding_context_at_most_two
    (buildStore : List ScrapedPage → List ContextChunk)
    (rank : List ContextChunk → String → List ContextChunk)
    (pages : List ScrapedPage) (message : String) (cs : List ContextChunk)
    (h : embeddingContext buildStore rank pages message = Except.ok cs) :
    cs.length ≤ 2 ∧ numberOfSimilarityResults = 2 := by
  unfold embeddingContext at h
  split at h
  · simp at h
  · simp only [Except.ok.injEq] at h
    subst h
    exact ⟨List.length_take_le _ _, rfl⟩

/-- C6 witness: a three-chunk store yields a two-chunk context. -/
theorem embedding_context_at_most_two_witness :
    ([{ pageContent := "c1", url := "u", title := "t" },
      { pageContent := "c2", url := "u", title := "t" }] : List ContextChunk).length ≤ 2 ∧
    numberOfSimilarityResults = 2 :=
  embedding_context_at_most_two threeChunkStore idRank onePage "q"
    [{ pageContent := "c1", url := "u", title := "t" },
     { pageContent := "c2", url := "u", title := "t" }] rfl

/-- C7: when the scraping collaborator reports overall failure or returns no
data, the scrape stage returns exactly the "scraping failed" sentinel page
without raising an error, and the pipeline proceeds to build context and
produce a successful answer whose one source is that sentinel. -/
theorem scrape_failure_degrades_gracefully (o : Oracles) (body : RequestBody)
    (m : String) (hm : body.message = some m) (hne : m ≠ "")
    (hfail : ∀ urls, (o.scrape urls).success = false ∨ (o.scrape urls).data = none)
    (hnonempty : filterUrls ((serperSearch o.organic
      (validatePages (body.pagesToCrawl.getD 3))).map SearchResult.link) ≠ [])
    (r : NDRawResult) (hllm : ∀ s u, o.llm s u = some r)
    (ps : List ProviderModel) (hprov : r.providers = some ps) :
    mapAndScrapeUrls o.organic o.scrape (validatePages (body.pagesToCrawl.getD 3)) =
      [scrapingFailedPage] ∧
    POST o body = PostResult.ok
      { answer := r.content
        selectedModel := ps.head?
        crawlInfo := { requestedPages := body.pagesToCrawl.getD 3
                       actualPagesCrawled := 1
                       embeddingsUsed := !(body.skipEmbeddings.getD false) }
        sources := [{ title := "Error", url := "Scraping failed" }] } := by
  have hmap : mapAndScrapeUrls o.organic o.scrape
      (validatePages (body.pagesToCrawl.getD 3)) = [scrapingFailedPage] := by
    unfold mapAndScrapeUrls
    dsimp only
    rw [if_neg (by simpa [List.isEmpty_iff] using hnonempty)]
    have hbad : (!(o.scrape (filterUrls ((serperSearch o.organic
        (validatePages (body.pagesToCrawl.getD 3))).map SearchResult.link))).success ||
        (o.scrape (filterUrls ((serperSearch o.organic
          (validatePages (body.pagesToCrawl.getD 3))).map SearchResult.link))).data.isNone) = true := by
      rcases hfail (filterUrls ((serperSearch o.organic
        (validatePages (body.pagesToCrawl.getD 3))).map SearchResult.link)) with h | h <;>
        simp [h]
    rw [if_pos hbad]
  refine ⟨hmap, ?_⟩
  unfold POST
  rw [hm]
  dsimp only
  rw [if_neg hne, hmap]
  cases hskip : body.skipEmbeddings.getD false <;>
    simp [hskip, generateLLMResponse, hllm, hprov, assemblePayload, sourcesOf,
      embeddingContext, Except.map, scrapingFailedPage]

/-- C7 witness: a failing scraper still yields a successful answer whose one
source is the "scraping failed" sentinel. -/
theorem scrape_failure_degrades_gracefully_witness :
    POST failScrapeOracles plainBody = PostResult.ok
      { answer := some "ans"
        selectedModel := some { provider := "openai", model := "gpt-4o-mini" }
        crawlInfo := { requestedPages := 3, actualPagesCrawled := 1, embeddingsUsed := false }
        sources := [{ title := "Error", url := "Scraping failed" }] } :=
  (scrape_failure_degrades_gracefully failScrapeOracles plainBody "hi" rfl (by decide)
    (fun _ => Or.inl rfl) (by decide) ndOk (fun _ _ => rfl)
    [{ provider := "openai", model := "gpt-4o-mini" }] rfl).2

/-- C8: a request with a missing or empty message yields the immediate 400
"Message is required" response, identically for every collaborator world — so
no collaborator is consulted. -/
theorem empty_message_immediate_client_error (o o₂ : Oracles) (body : RequestBody)
    (h : body.message = none ∨ body.message = some "") :
    POST o body = PostResult.clientError "Message is required" ∧
    POST o body = POST o₂ body := by
  rcases h with h | h <;> simp [POST, h]

/-- C8 witness: the empty-message request is rejected identically in two
different collaborator worlds. -/
theorem empty_message_immediate_client_error_witness :
    POST okOracles { message := some "", pagesToCrawl := none, skipEmbeddings := none } =
      PostResult.clientError "Message is required" ∧
    POST okOracles { message := some "", pagesToCrawl := none, skipEmbeddings := none } =
      POST noLLMOracles { message := some "", pagesToCrawl := none, skipEmbeddings := none } :=
  empty_message_immediate_client_error okOracles noLLMOracles _ (Or.inr rfl)

/-- C9: every successful payload lists exactly one `{title, url}` entry per
retained ScrapedPage (sentinels included), in order, and
`crawlInfo.actualPagesCrawled` equals `sources.length`. -/
theorem sources_one_entry_per_page_count_matches (o : Oracles)
    (body : RequestBody) (payload : ResponsePayload)
    (h : POST o body = PostResult.ok payload) :
    payload.sources =
      (mapAndScrapeUrls o.organic o.scrape
        (validatePages (body.pagesToCrawl.getD 3))).map
        (fun page => { title := page.title, url := page.url }) ∧
    payload.crawlInfo.actualPagesCrawled = payload.sources.length :=
  ⟨(post_ok_inv o body payload h).1, (post_ok_inv o body payload h).2.2.1⟩

/-- C9 witness: the concrete successful run's payload satisfies both parts. -/
theorem sources_one_entry_per_page_count_matches_witness :
    okPayload.sources =
      (mapAndScrapeUrls okOracles.organic okOracles.scrape
        (validatePages (okBody.pagesToCrawl.getD 3))).map
        (fun page => { title := page.title, url := page.url }) ∧
    okPayload.crawlInfo.actualPagesCrawled = okPayload.sources.length :=
  sources_one_entry_per_page_count_matches okOracles okBody okPayload (by decide)

/-- C10: every successful payload reports the raw caller-supplied
`pagesToCrawl` (default 3 when absent) as `crawlInfo.requestedPages`, not the
clamped value: input 25 reports 25 and input 0 reports 0. -/
theorem requestedPages_reports_raw_value (o : Oracles) (body : RequestBody)
    (payload : ResponsePayload) (h : POST o body = PostResult.ok payload) :
    payload.crawlInfo.requestedPages = body.pagesToCrawl.getD 3 ∧
    (body.pagesToCrawl = some 25 → payload.crawlInfo.requestedPages = 25) ∧
    (body.pagesToCrawl = some 0 → payload.crawlInfo.requestedPages = 0) := by
  have hr := (post_ok_inv o body payload h).2.1
  exact ⟨hr, fun h25 => by rw [hr, h25]; rfl, fun h0 => by rw [hr, h0]; rfl⟩

/-- C10 witness: a request for 25 pages reports `requestedPages = 25` even
though only the clamped 10 are used. -/
theorem requestedPages_reports_raw_value_witness :
    okPayload.crawlInfo.requestedPages = 25 :=
  (requestedPages_reports_raw_value okOracles okBody okPayload (by decide)).2.1 rfl

end AIChat
